import Mathlib

/-!
Verification of the failure-location extraction and reporting pipeline of a
SeleniumBase UI-test harness (`conftest.py`, `test_cases/operations.py`).

Python strings are modelled as `List Char` (`Str`); each Python string
primitive used by the source (`split`, `strip`, `replace`, `startswith`,
`in`, `join`, `int()`, f-string number rendering) is re-implemented below
with Python semantics.  `str.strip()` is modelled over the ASCII whitespace
characters (the harness never feeds it other Unicode whitespace), and
`int()` is modelled as optional sign plus decimal digits (the underscore
digit-grouping accepted by Python cannot occur in a `path:line:` stack
line).
-/

set_option maxRecDepth 100000

namespace UITest

/-- Python strings, modelled as lists of unicode scalar values. -/
abbrev Str := List Char

/-- The whitespace characters removed by `str.strip()` (ASCII subset). -/
def isPySpace (c : Char) : Bool :=
  c = ' ' || c = '\t' || c = '\n' || c = '\r' || c = Char.ofNat 11 || c = Char.ofNat 12

/-- Python `s.strip()`: remove leading and trailing whitespace. -/
def pyStrip (s : Str) : Str :=
  ((s.dropWhile isPySpace).reverse.dropWhile isPySpace).reverse

/-- Python `s.startswith(p)`. -/
def pyStartsWith (p s : Str) : Bool :=
  p.isPrefixOf s

/-- Python `needle in hay` substring test. -/
def pyContains (needle : Str) : Str → Bool
  | [] => needle.isEmpty
  | c :: rest => needle.isPrefixOf (c :: rest) || pyContains needle rest

/-- Worker for `pySplit`: `acc` holds the chars of the current field,
reversed.  The `Nat` argument is recursion fuel; every step consumes at
least one character of the remaining string, so starting it at the
length of the string (as `pySplit` does) makes the out-of-fuel branch
unreachable, and the structural recursion keeps the function
kernel-reducible. -/
def pySplitGo (sep : Str) : Nat → Str → Str → List Str
  | _, acc, [] => [acc.reverse]
  | 0, acc, s => [acc.reverse ++ s]
  | fuel + 1, acc, c :: rest =>
    if sep.isPrefixOf (c :: rest) then
      acc.reverse :: pySplitGo sep fuel [] (List.drop sep.length (c :: rest))
    else
      pySplitGo sep fuel (c :: acc) rest

/-- Python `s.split(sep)` for a non-empty separator: split at every
non-overlapping occurrence, scanning left to right; always returns at
least one (possibly empty) field. -/
def pySplit (sep s : Str) : List Str :=
  pySplitGo sep s.length [] s

/-- Python `s.replace(old, new)` (non-empty `old`): equals
`new.join(s.split(old))`. -/
def pyReplace (old new s : Str) : Str :=
  List.intercalate new (pySplit old s)

/-- Python `sep.join(parts)`. -/
def pyJoin (sep : Str) (parts : List Str) : Str :=
  List.intercalate sep parts

/-- Python `xs[-1]` on a non-empty list (`split` results are never empty). -/
def pyLast (xs : List Str) : Str :=
  xs.getLastD []

/-- Decimal digit string of a natural number, via `Nat.toDigits`. -/
def natStr (n : Nat) : Str :=
  Nat.toDigits 10 n

/-- Python `str(i)` / f-string rendering of an integer. -/
def intStr (i : Int) : Str :=
  if i < 0 then '-' :: natStr i.natAbs else natStr i.toNat

/-- All-digit test for a non-empty string. -/
def allDigits (s : Str) : Bool :=
  !s.isEmpty && s.all Char.isDigit

/-- Value of a decimal digit string. -/
def digitsVal (s : Str) : Nat :=
  s.foldl (fun acc c => acc * 10 + (c.toNat - '0'.toNat)) 0

/-- Python `int(s)` on an already-stripped string: optional sign followed by
decimal digits, `none` when the literal is malformed (`ValueError`). -/
def pyInt (s : Str) : Option Int :=
  match s with
  | '-' :: rest => if allDigits rest then some (-(digitsVal rest : Int)) else none
  | '+' :: rest => if allDigits rest then some (digitsVal rest : Int) else none
  | _ => if allDigits s then some (digitsVal s : Int) else none

/-- A parsed stack-frame candidate / chosen real location
(`real_location` dict shape in `conftest.py`). -/
structure RealLocation where
  file : Str
  function : Str
  line : Int
  code : Str
deriving DecidableEq, Repr

/-- The empty placeholder location. -/
def emptyLocation : RealLocation :=
  { file := [], function := [], line := 0, code := [] }

/-- The code-line search next to a frame header: among the following lines,
keep the first whose stripped form is non-blank, does not start with `File`,
and does not consist solely of `_` and space characters. -/
def codeLineOf (nextLines : List Str) : Str :=
  match nextLines.find? (fun l =>
      let stripped := pyStrip l
      !stripped.isEmpty && !pyStartsWith ("File".data) stripped &&
        !stripped.all (fun c => c = '_' || c = ' ')) with
  | some l => pyStrip l
  | none => []

/-- POSIX `os.path.basename`: the segment after the last `/`. -/
def pyBasename (p : Str) : Str :=
  pyLast (pySplit ("/".data) p)

/-- Parse one candidate stack-frame line
(`test_cases/x.py:173: in buy_goods` style).  Mirrors the body of the
scan loop in `extract_real_error_location`; a malformed line number
(`int()` raising `ValueError`) discards the frame, as the `except` clause
does. -/
def parseFrameLine (line : Str) (nextLines : List Str) : Option RealLocation :=
  if (pyContains ("test_cases/".data) line || pyContains ("test_cases\\".data) line)
      && pyContains (".py:".data) line then
    let parts := pySplit (":".data) line
    if parts.length ≥ 3 then
      match pyInt (pyStrip (parts.getD 1 [])) with
      | some lineNum =>
        let funcName := if pyContains ("in ".data) line
          then pyStrip (pyLast (pySplit ("in ".data) line)) else []
        some { file := pyBasename (pyStrip (parts.getD 0 []))
               function := funcName
               line := lineNum
               code := codeLineOf (nextLines.take 2) }
      | none => none
    else none
  else none

/-- The scan loop of `extract_real_error_location`: walk the lines top to
bottom, collecting every parsed frame; the code-line search for a frame at
index `i` looks at lines `i+1` and `i+2`. -/
def scanFrames : List Str → List RealLocation
  | [] => []
  | line :: rest =>
    match parseFrameLine line rest with
    | some f => f :: scanFrames rest
    | none => scanFrames rest

/-- The frames recognized in a report text (`longrepr` split on newlines). -/
def framesOf (text : Str) : List RealLocation :=
  scanFrames (pySplit ("\n".data) text)

/-- Non-empty function name (predicate of the assertion-branch loop). -/
def hasFunction (f : RealLocation) : Bool :=
  !f.function.isEmpty

/-- Predicate of the non-assertion branch: non-empty function name that is
not a `test_`-prefixed test entry point. -/
def isBusinessFrame (f : RealLocation) : Bool :=
  !f.function.isEmpty && !pyStartsWith ("test_".data) f.function

/-- Frame-selection policy of `extract_real_error_location` (lines 103-127
of `conftest.py`): assertion-style errors with at least two frames pick the
last frame with a function name among all but the final frame; otherwise
the first business-logic frame; falling back to the very first frame when
the chosen location has no function name. -/
def selectFrame (isAssertionError : Bool) (frames : List RealLocation) : RealLocation :=
  let sel :=
    if isAssertionError && frames.length ≥ 2 then
      match (frames.dropLast.reverse).find? hasFunction with
      | some f => f
      | none => emptyLocation
    else
      match frames.find? isBusinessFrame with
      | some f => f
      | none => emptyLocation
  if sel.function.isEmpty then
    match frames with
    | [] => sel
    | f :: _ => f
  else sel

/-- Function `extract_real_error_location` of `conftest.py`, applied to the
rendered `longrepr` text of the report (an absent / empty `longrepr` is the
empty string, which Python treats as falsy and returns early on). -/
def extract_real_error_location (text : Str) : RealLocation :=
  if text.isEmpty then emptyLocation
  else selectFrame (pyContains ("AssertionError".data) text) (framesOf text)

/-! ### Sample report texts used by witnesses -/

/-- An assertion-style report with three recognizable frames. -/
def sampleAssertText : Str :=
  ("test_cases/a.py:10: in test_foo\n    x()\ntest_cases/b.py:20: in helper\n    y()\ntest_cases/ops.py:30: in assert_x\n    raise\nAssertionError: msg").data

def frameA : RealLocation :=
  { file := ("a.py").data, function := ("test_foo").data, line := 10, code := ("x()").data }

def frameB : RealLocation :=
  { file := ("b.py").data, function := ("helper").data, line := 20, code := ("y()").data }

def frameC : RealLocation :=
  { file := ("ops.py").data, function := ("assert_x").data, line := 30, code := ("raise").data }

/-- A non-assertion report whose first frame is a `test_` entry point. -/
def sampleErrorText : Str :=
  ("test_cases/a.py:10: in test_foo\n    x()\ntest_cases/b.py:20: in helper\n    y()\nTimeoutException").data

/-! ### Engine outcome events and the run aggregator -/

/-- One engine outcome event: the pytest `report` fields read by the hook
(`when`, `outcome`, `longrepr`) together with the `item` fields it reads
(`nodeid` and the `location` triple of file, zero-based line, test name).
An absent `longrepr` is modelled as the empty string (both are falsy). -/
structure Outcome where
  nodeid : Str
  phase : Str
  outcome : Str
  longrepr : Str
  locFile : Str
  locLine : Int
  locName : Str
deriving DecidableEq, Repr

/-- pytest `BaseReport.passed` property: `outcome == "passed"`. -/
def reportPassed (o : Outcome) : Bool :=
  o.outcome = ("passed").data

/-- pytest `BaseReport.failed` property: `outcome == "failed"`. -/
def reportFailed (o : Outcome) : Bool :=
  o.outcome = ("failed").data

/-- One entry of the failed-cases list of `test_stats` (`error_info` dict). -/
structure FailureRecord where
  name : Str
  location : Str
  line : Int
  error : Str
  real_function : Str
  real_code : Str
deriving DecidableEq, Repr

/-- The process-wide `test_stats` dict. -/
structure RunStats where
  total : Nat
  passed : Nat
  failed : Nat
  error : Nat
  skipped : Nat
  failed_cases : List FailureRecord
  report_file : Str
deriving DecidableEq, Repr

/-- Initial value of `test_stats`. -/
def initStats : RunStats :=
  { total := 0, passed := 0, failed := 0, error := 0, skipped := 0,
    failed_cases := [], report_file := [] }

/-- The noise substrings whose presence drops a non-`E   ` line. -/
def noiseMarkers : List Str :=
  [("/opt/homebrew/").data, ("Stacktrace:").data, ("chromedriver").data,
   ("libsystem").data]

/-- Per-line step of the error-text cleaning loop: a line whose stripped
form starts with `E   ` is kept with every occurrence of `E   ` removed and
the result trimmed; any other line is dropped when it contains a noise
substring, else kept trimmed. -/
def processErrorLine (line : Str) : Option Str :=
  if pyStartsWith (("E   ").data) (pyStrip line) then
    some (pyStrip (pyReplace (("E   ").data) [] line))
  else if noiseMarkers.any (fun m => pyContains m line) then
    none
  else
    some (pyStrip line)

/-- The denoised, 300-character-bounded error summary
(`clean_error` in the failed branch of the hook). -/
def cleanError (errorStr : Str) : Str :=
  (pyJoin (("\n").data)
    ((pySplit (("\n").data) errorStr).filterMap processErrorLine)).take 300

/-- The `location_str` of the failed branch: the extracted location when a
function name was found, else the engine-reported file, test name and
zero-based line plus one. -/
def locationString (real : RealLocation) (o : Outcome) : Str :=
  if !real.function.isEmpty then
    real.file ++ ("::").data ++ real.function ++ (" (第").data ++
      intStr real.line ++ ("行)").data
  else
    o.locFile ++ ("::").data ++ o.locName ++ (" (第").data ++
      intStr (o.locLine + 1) ++ ("行)").data

/-- The `error_info` record built for one failed outcome. -/
def buildFailureRecord (o : Outcome) : FailureRecord :=
  let real := extract_real_error_location o.longrepr
  { name := o.nodeid
    location := locationString real o
    line := if real.line ≠ 0 then real.line else o.locLine + 1
    error := cleanError o.longrepr
    real_function := real.function
    real_code := real.code }

/-- Hook `pytest_runtest_makereport` of `conftest.py`, as a transition on the
`test_stats` state: only `call`-phase reports are counted; `total` always
increments, then exactly one of the passed / failed / skipped branches
applies (a report that is none of the three changes nothing further). -/
def pytest_runtest_makereport (stats : RunStats) (o : Outcome) : RunStats :=
  if o.phase = ("call").data then
    let stats := { stats with total := stats.total + 1 }
    if reportPassed o then
      { stats with passed := stats.passed + 1 }
    else if reportFailed o then
      { stats with failed := stats.failed + 1,
                   failed_cases := stats.failed_cases ++ [buildFailureRecord o] }
    else if o.outcome = ("skipped").data then
      { stats with skipped := stats.skipped + 1 }
    else
      stats
  else
    stats

/-! ### Report rendering -/

/-- Short error-type name: split the error text at the first colon, then
take the last dot-separated segment. -/
def errorTypeOf (err : Str) : Str :=
  pyLast (pySplit ((".").data) ((pySplit ((":").data) err).headD []))

/-- The detail after a `Message:` marker: the stripped text after the last
occurrence when the marker is present, else the empty string. -/
def errorDetail (err : Str) : Str :=
  if pyContains (("Message:").data) err then
    pyStrip (pyLast (pySplit (("Message:").data) err))
  else []

/-- The `Message:`-derived detail as the markdown renderer truncates it. -/
def mdErrorDetail (err : Str) : Str :=
  (errorDetail err).take 80

/-- The `Message:`-derived detail as the console renderer truncates it. -/
def consoleErrorDetail (err : Str) : Str :=
  (errorDetail err).take 100

/-- Simplified test name: the text after the last double-colon qualifier
separator of the record name. -/
def testNameOf (c : FailureRecord) : Str :=
  pyLast (pySplit (("::").data) c.name)

/-- Grouping key: base name of the part of `name` before the first `::`,
with every occurrence of `.py` removed (Python `str.replace`). -/
def fileKeyOf (c : FailureRecord) : Str :=
  pyReplace ((".py").data) [] (pyBasename ((pySplit (("::").data) c.name).headD []))

/-- Insert a record into ordered per-file groups (`defaultdict` over an
insertion-ordered dict): first-encounter group order, insertion order
within a group. -/
def groupInsert (groups : List (Str × List FailureRecord)) (key : Str)
    (c : FailureRecord) : List (Str × List FailureRecord) :=
  match groups with
  | [] => [(key, [c])]
  | (k, cs) :: rest =>
    if k = key then (k, cs ++ [c]) :: rest
    else (k, cs) :: groupInsert rest key c

/-- The `cases_by_file` grouping: failed cases partitioned by originating file. -/
def groupByFile (cases : List FailureRecord) : List (Str × List FailureRecord) :=
  cases.foldl (fun gs c => groupInsert gs (fileKeyOf c) c) []

/-- One `print(x)` emits its argument followed by a newline. -/
def printLine (s : Str) : Str :=
  s ++ [Char.ofNat 10]

/-- A run of 70 `=` characters. -/
def eq70 : Str := List.replicate 70 '='

/-- A run of 70 `-` characters. -/
def dash70 : Str := List.replicate 70 '-'

/-- Console text for one failed case (numbered entry of
`pytest_terminal_summary`). -/
def consoleCaseBlock (num : Nat) (c : FailureRecord) : Str :=
  printLine (("\n").data ++ natStr num ++ (". 用例名: ").data ++ testNameOf c ++
    (" (第").data ++ intStr c.line ++ ("行)").data) ++
  (if pyContains (("AssertionError:").data) c.error then
    (let customMsg := pyStrip (pyLast (pySplit (("AssertionError:").data) c.error))
     if !customMsg.isEmpty then printLine (("   ").data ++ customMsg) else [])
  else
    (if !c.real_code.isEmpty then
      printLine (("   ").data ++ c.real_code)
    else if !c.real_function.isEmpty &&
        !pyStartsWith (("test_").data) c.real_function then
      printLine (("   in ").data ++ c.real_function)
    else []) ++
    (if pyContains (("Exception").data) c.error then
      (if !(errorDetail c.error).isEmpty then
        printLine (("   错误: ").data ++ errorTypeOf c.error ++ (" - ").data ++
          consoleErrorDetail c.error)
      else
        printLine (("   错误: ").data ++ errorTypeOf c.error))
    else []))

/-- Console text for the cases of one group. -/
def consoleCases (num : Nat) : List FailureRecord → Str
  | [] => []
  | c :: rest => consoleCaseBlock num c ++ consoleCases (num + 1) rest

/-- Console text for the per-file groups; `case_num` threads across
groups. -/
def consoleGroups (num : Nat) : List (Str × List FailureRecord) → Str
  | [] => []
  | (fname, cs) :: rest =>
    printLine (("\n📄 测试用例集: ").data ++ fname) ++
    consoleCases num cs ++
    consoleGroups (num + cs.length) rest

/-- The printed output of `pytest_terminal_summary` (the webhook send that
follows it is modelled separately by `send_to_wecom`). -/
def render_console (stats : RunStats) : Str :=
  printLine (("\n").data ++ eq70) ++
  printLine (("📊 测试结果统计").data) ++
  printLine eq70 ++
  printLine (("📝 总运行条数: ").data ++ natStr stats.total) ++
  printLine (("✅ 成功条数: ").data ++ natStr stats.passed) ++
  printLine (("❌ 失败条数: ").data ++ natStr stats.failed) ++
  printLine (("⏭ 跳过条数: ").data ++ natStr stats.skipped) ++
  (if stats.failed > 0 then
    printLine (("\n").data ++ dash70) ++
    printLine (("❌ 失败用例详情:").data) ++
    printLine dash70 ++
    consoleGroups 1 (groupByFile stats.failed_cases)
  else []) ++
  printLine (("\n").data ++ eq70)

/-- Markdown text for one failed case (numbered entry of the webhook
payload built in `send_to_wecom`). -/
def mdCaseBlock (num : Nat) (c : FailureRecord) : Str :=
  ("\n**").data ++ natStr num ++ (". ").data ++ testNameOf c ++
    (" (第").data ++ intStr c.line ++ ("行)**\n").data ++
  (if pyContains (("AssertionError:").data) c.error then
    (let customMsg := pyStrip (pyLast (pySplit (("AssertionError:").data) c.error))
     if !customMsg.isEmpty then ("- `").data ++ customMsg ++ ("`\n").data else [])
  else
    (if !c.real_code.isEmpty then
      ("- `").data ++ c.real_code ++ ("`\n").data
    else if !c.real_function.isEmpty &&
        !pyStartsWith (("test_").data) c.real_function then
      ("- in `").data ++ c.real_function ++ ("`\n").data
    else []) ++
    (if pyContains (("Exception").data) c.error then
      (if !(errorDetail c.error).isEmpty then
        ("- 错误: ").data ++ errorTypeOf c.error ++ (" - ").data ++
          mdErrorDetail c.error ++ ("\n").data
      else
        ("- 错误: ").data ++ errorTypeOf c.error ++ ("\n").data)
    else []))

/-- Markdown text for the cases of one group. -/
def mdCases (num : Nat) : List FailureRecord → Str
  | [] => []
  | c :: rest => mdCaseBlock num c ++ mdCases (num + 1) rest

/-- Markdown text for the per-file groups. -/
def mdGroups (num : Nat) : List (Str × List FailureRecord) → Str
  | [] => []
  | (fname, cs) :: rest =>
    ("\n**📄 测试文件: ").data ++ fname ++ ("**\n").data ++
    mdCases num cs ++
    mdGroups (num + cs.length) rest

/-- The constant text of the markdown payload up to the timestamp. -/
def mdHeader : Str :=
  ("## 🧪 H5 UI自动化测试报告\n\n**测试时间**: ").data

/-- The markdown payload after the timestamp: counters, failed-case
details, and the report-artifact section. -/
def mdAfterTime (stats : RunStats) : Str :=
  ("\n\n### 📊 测试结果统计\n- 📝 总运行条数: **").data ++ natStr stats.total ++
  ("**\n- ✅ 成功条数: **").data ++ natStr stats.passed ++
  ("**\n- ❌ 失败条数: **").data ++ natStr stats.failed ++
  ("**\n- ⏭ 跳过条数: **").data ++ natStr stats.skipped ++
  ("**\n").data ++
  (if stats.failed > 0 then
    ("\n### ❌ 失败用例详情\n").data ++ mdGroups 1 (groupByFile stats.failed_cases)
  else []) ++
  (if !stats.report_file.isEmpty then
    ("\n### 📄 测试报告\n文件: `").data ++ stats.report_file ++ ("`\n").data
  else [])

/-- The `content` markdown built by `send_to_wecom`; `now` is the
`datetime.now().strftime(...)` timestamp the payload embeds. -/
def render_markdown (stats : RunStats) (now : Str) : Str :=
  mdHeader ++ now ++ mdAfterTime stats

/-! ### Notification sink -/

/-- Outcome of the webhook send: skipped without any network call, or a
single HTTP POST of the rendered markdown payload to the webhook URL. -/
inductive SendResult where
  | skipped
  | posted (url : Str) (payload : Str)
deriving DecidableEq, Repr

/-- Function `send_to_wecom`: with an unset (`none`) or empty webhook URL the
function prints a local advisory and returns before reading the run
statistics or touching the network; otherwise it posts the markdown
payload. -/
def send_to_wecom (webhook_url : Option Str) (stats : RunStats) (now : Str) :
    SendResult :=
  match webhook_url with
  | none => SendResult.skipped
  | some url =>
    if url.isEmpty then SendResult.skipped
    else SendResult.posted url (render_markdown stats now)

/-! ### Custom assertion helpers (`test_cases/operations.py`) -/

/-- Result of the driver wait the assertion helpers perform: success,
a `NoSuchElementException` / `TimeoutException`, or any other exception. -/
inductive DriverResult where
  | ok
  | notFound
  | failure
deriving DecidableEq, Repr

/-- The apostrophe character (U+0027), used in the text-mismatch default
message. -/
def sq : Char := Char.ofNat 39

/-- Helper `is_element_exists`: `True` exactly when the wait succeeds; both
exception kinds are caught and yield `False`. -/
def is_element_exists (d : DriverResult) : Bool :=
  match d with
  | .ok => true
  | .notFound => false
  | .failure => false

/-- Helper `assert_element_exists`: `True` on success, else `AssertionError` with
the caller message or the default `元素不存在: {selector}`. -/
def assert_element_exists (d : DriverResult) (selector : Str)
    (error_msg : Option Str) : Except Str Bool :=
  if is_element_exists d then Except.ok true
  else Except.error (error_msg.getD (("元素不存在: ").data ++ selector))

/-- Helper `assert_element_is_visible`: `True` on success; `AssertionError` with
the caller message or a kind-specific default otherwise. -/
def assert_element_is_visible (d : DriverResult) (selector : Str)
    (error_msg : Option Str) : Except Str Bool :=
  match d with
  | .ok => Except.ok true
  | .notFound => Except.error (error_msg.getD (("元素不可见: ").data ++ selector))
  | .failure =>
    Except.error (error_msg.getD (("检查元素可见性异常: ").data ++ selector))

/-- Helper `assert_element_clickable`: `True` on success; `AssertionError` with
the caller message or a kind-specific default otherwise. -/
def assert_element_clickable (d : DriverResult) (selector : Str)
    (error_msg : Option Str) : Except Str Bool :=
  match d with
  | .ok => Except.ok true
  | .notFound => Except.error (error_msg.getD (("元素不可点击: ").data ++ selector))
  | .failure =>
    Except.error (error_msg.getD (("检查元素可点击性异常: ").data ++ selector))

/-- The text-mismatch default message of `assert_text_in_element`:
`元素文本不匹配: 期望包含{expected}, 实际为{actual}` with both values
quoted in apostrophes — it embeds the expected and actual text, not the
selector. -/
def mismatchMsg (expected actual : Str) : Str :=
  ("元素文本不匹配: 期望包含").data ++ [sq] ++ expected ++ [sq] ++
    (", 实际为").data ++ [sq] ++ actual ++ [sq]

/-- Helper `assert_text_in_element`: `actual_text` is what `get_text_safe`
returned (it catches every exception itself, so the
`except Exception` branch of the helper is unreachable); the helper succeeds when the
expected text occurs in it, else raises the caller message or the
text-mismatch default. -/
def assert_text_in_element (actual_text selector expected_text : Str)
    (error_msg : Option Str) : Except Str Bool :=
  if pyContains expected_text actual_text then Except.ok true
  else Except.error (error_msg.getD (mismatchMsg expected_text actual_text))

/-- The default-message pattern `{kind}: {selector}` claimed for the
assertion helpers: some kind text, a colon and space, then the selector. -/
def matchesDefaultPattern (msg selector : Str) : Prop :=
  ∃ kind : Str, msg = kind ++ ((": ").data ++ selector)

/-! ### Concrete inputs used by witnesses and counterexamples -/

/-- A failed call-phase outcome whose only frame has no function name but
line number 42, while the engine reports zero-based line 9. -/
def sampleFallbackOutcome : Outcome :=
  { nodeid := ("test_cases/a.py::test_x").data
    phase := ("call").data
    outcome := ("failed").data
    longrepr := ("test_cases/a.py:42: boom\nWebDriverException: Message: kaput").data
    locFile := ("test_cases/a.py").data
    locLine := 9
    locName := ("test_x").data }

/-- A call-phase outcome whose engine-level status is `error`. -/
def sampleErrorStatusOutcome : Outcome :=
  { nodeid := ("test_cases/a.py::test_x").data
    phase := ("call").data
    outcome := ("error").data
    longrepr := ("boom").data
    locFile := ("test_cases/a.py").data
    locLine := 3
    locName := ("test_x").data }

/-- A setup-phase outcome. -/
def sampleSetupOutcome : Outcome :=
  { sampleErrorStatusOutcome with phase := ("setup").data }

/-- A non-trivial statistics value. -/
def sampleStats : RunStats :=
  { total := 5, passed := 3, failed := 1, error := 0, skipped := 1,
    failed_cases := [buildFailureRecord sampleFallbackOutcome],
    report_file := ("report_20251012_010203.html").data }

end UITest

namespace UITest

/-! ### Helper lemmas -/

theorem pyContains_nil (needle : Str) : pyContains needle [] = needle.isEmpty := rfl

theorem ae_marker_isEmpty : (("AssertionError").data).isEmpty = false := rfl

theorem hasFunction_not_isEmpty {f : RealLocation} (h : hasFunction f = true) :
    f.function.isEmpty = false := by
  simpa [hasFunction] using h

theorem isBusinessFrame_not_isEmpty {f : RealLocation} (h : isBusinessFrame f = true) :
    f.function.isEmpty = false := by
  simp [isBusinessFrame] at h
  simpa using h.1

theorem extract_cons (c : Char) (rest : Str) :
    extract_real_error_location (c :: rest) =
      selectFrame (pyContains (("AssertionError").data) (c :: rest))
        (framesOf (c :: rest)) := rfl

theorem selectFrame_assertion_found {frames : List RealLocation} {f : RealLocation}
    (h2 : 2 ≤ frames.length)
    (hfind : (frames.dropLast.reverse).find? hasFunction = some f) :
    selectFrame true frames = f := by
  have hfe : f.function.isEmpty = false :=
    hasFunction_not_isEmpty (List.find?_some hfind)
  simp [selectFrame, h2, hfind, hfe]

theorem selectFrame_of_cond_false {b : Bool} {frames : List RealLocation}
    (hc : (b && decide (frames.length ≥ 2)) = false) :
    selectFrame b frames =
      match frames.find? isBusinessFrame with
      | some f => f
      | none => (match frames with | [] => emptyLocation | f0 :: _ => f0) := by
  unfold selectFrame
  rw [hc, if_neg Bool.false_ne_true]
  cases hf : frames.find? isBusinessFrame with
  | some f =>
    have hfe : f.function.isEmpty = false :=
      isBusinessFrame_not_isEmpty (List.find?_some hf)
    simp [hf, hfe]
  | none =>
    cases frames <;> simp [hf, emptyLocation]

theorem selectFrame_nonassertion {b : Bool} {frames : List RealLocation}
    (hcond : b = false ∨ frames.length < 2) :
    (∀ f, frames.find? isBusinessFrame = some f → selectFrame b frames = f)
    ∧ (frames.find? isBusinessFrame = none →
        ∀ f0 rest, frames = f0 :: rest → selectFrame b frames = f0)
    ∧ (frames = [] → selectFrame b frames = emptyLocation) := by
  have hc : (b && decide (frames.length ≥ 2)) = false := by
    rcases hcond with h | h
    · simp [h]
    · simp [Nat.not_le.mpr h]
  refine ⟨?_, ?_, ?_⟩
  · intro f hfind
    rw [selectFrame_of_cond_false hc, hfind]
  · intro hfind f0 rest hfr
    subst hfr
    rw [selectFrame_of_cond_false hc, hfind]
  · intro hfr
    subst hfr
    rw [selectFrame_of_cond_false hc]
    rfl

/-! ### C1 -/

/-- C1: for a report text containing the `AssertionError` marker whose scan
yields at least two frame candidates, `extract_real_error_location` returns
the first candidate with a non-empty function name when iterating the
candidates excluding the last one in reverse order; in particular for a
scan `[A, B, C]` with all function names non-empty it returns `B`,
never `C`. -/
theorem extract_assertion_prefers_second_to_last :
    (∀ (text : Str) (f : RealLocation),
      pyContains (("AssertionError").data) text = true →
      2 ≤ (framesOf text).length →
      ((framesOf text).dropLast.reverse).find? hasFunction = some f →
      extract_real_error_location text = f)
    ∧ (∀ (text : Str) (A B C : RealLocation),
      pyContains (("AssertionError").data) text = true →
      framesOf text = [A, B, C] →
      hasFunction A = true → hasFunction B = true → hasFunction C = true →
      extract_real_error_location text = B) := by
  constructor
  · intro text f hAE h2 hfind
    cases text with
    | nil => simp [pyContains_nil, ae_marker_isEmpty] at hAE
    | cons c rest =>
      rw [extract_cons, hAE]
      exact selectFrame_assertion_found h2 hfind
  · intro text A B C hAE hfr hA hB hC
    cases text with
    | nil => simp [pyContains_nil, ae_marker_isEmpty] at hAE
    | cons c rest =>
      rw [extract_cons, hAE]
      apply selectFrame_assertion_found
      · rw [hfr]; simp
      · rw [hfr]
        simp [List.find?, hB]

/-- C1 witness: the three-frame assertion report `sampleAssertText`, whose
frames are `[frameA, frameB, frameC]`, is resolved to `frameB`. -/
theorem extract_assertion_prefers_second_to_last_witness :
    extract_real_error_location sampleAssertText = frameB :=
  extract_assertion_prefers_second_to_last.2 sampleAssertText frameA frameB frameC
    (by decide) (by decide) (by decide) (by decide) (by decide)

/-! ### C2 -/

/-- C2: when the assertion rule does not apply (no `AssertionError` marker,
or fewer than two candidates), `extract_real_error_location` returns the
first candidate in forward scan order whose function name is non-empty and
not `test_`-prefixed; if none qualifies but candidates exist, the very
first candidate; with no candidates, the empty `RealLocation` whose
function name is empty. -/
theorem extract_nonassertion_policy :
    ∀ text : Str,
      pyContains (("AssertionError").data) text = false ∨ (framesOf text).length < 2 →
      (∀ f, (framesOf text).find? isBusinessFrame = some f →
          extract_real_error_location text = f)
      ∧ ((framesOf text).find? isBusinessFrame = none →
          ∀ f0 rest, framesOf text = f0 :: rest →
          extract_real_error_location text = f0)
      ∧ (framesOf text = [] →
          extract_real_error_location text = emptyLocation ∧
            emptyLocation.function = []) := by
  intro text hcond
  cases text with
  | nil =>
    refine ⟨?_, ?_, ?_⟩
    · intro f hf
      simp [framesOf, pySplit, pySplitGo, scanFrames, parseFrameLine, pyContains] at hf
    · intro _ f0 rest hfr
      simp [framesOf, pySplit, pySplitGo, scanFrames, parseFrameLine, pyContains] at hfr
    · intro _
      exact ⟨rfl, rfl⟩
  | cons c rest =>
    obtain ⟨h1, h2, h3⟩ := @selectFrame_nonassertion
      (pyContains (("AssertionError").data) (c :: rest))
      (framesOf (c :: rest)) hcond
    refine ⟨?_, ?_, ?_⟩
    · intro f hf
      rw [extract_cons]
      exact h1 f hf
    · intro hf f0 rest' hfr
      rw [extract_cons]
      exact h2 hf f0 rest' hfr
    · intro hfr
      rw [extract_cons]
      exact ⟨h3 hfr, rfl⟩

/-- C2 witness: `sampleErrorText` has no `AssertionError` marker and frames
`[test_foo, helper]`; extraction skips the `test_`-prefixed entry point and
returns the `helper` frame. -/
theorem extract_nonassertion_policy_witness :
    extract_real_error_location sampleErrorText = frameB :=
  (extract_nonassertion_policy sampleErrorText (Or.inl (by decide))).1 frameB (by decide)

/-! ### C3 -/

/-- C3 counterexample: observing a call-phase outcome with engine-level
status `error` leaves the `error` counter at 0 — no branch of the hook
ever increments it, so the claimed increment does not happen. -/
theorem error_status_counter_cex :
    sampleErrorStatusOutcome.phase = ("call").data ∧
    sampleErrorStatusOutcome.outcome = ("error").data ∧
    pytest_runtest_makereport initStats sampleErrorStatusOutcome =
      { initStats with total := 1 } ∧
    (pytest_runtest_makereport initStats sampleErrorStatusOutcome).error = 0 := by
  refine ⟨rfl, rfl, by decide, by decide⟩

/-- C3 amended: the aggregator never modifies the `error` counter; a
call-phase outcome whose status is neither passed, failed nor skipped
(such as an engine-level `error`) only increments `total`, with no
location analysis and no appended record. -/
theorem error_counter_never_incremented :
    (∀ (stats : RunStats) (o : Outcome),
      (pytest_runtest_makereport stats o).error = stats.error) ∧
    (∀ (stats : RunStats) (o : Outcome),
      o.phase = ("call").data → reportPassed o = false → reportFailed o = false →
      o.outcome ≠ ("skipped").data →
      pytest_runtest_makereport stats o = { stats with total := stats.total + 1 }) := by
  constructor
  · intro stats o
    simp only [pytest_runtest_makereport]
    repeat' split
    all_goals rfl
  · intro stats o hph hp hf hs
    simp [pytest_runtest_makereport, hph, hp, hf, hs]

/-- C3 witness: the `error`-status outcome applied to the initial state. -/
theorem error_counter_never_incremented_witness :
    pytest_runtest_makereport initStats sampleErrorStatusOutcome =
      { initStats with total := initStats.total + 1 } :=
  error_counter_never_incremented.2 initStats sampleErrorStatusOutcome rfl
    (by decide) (by decide) (by decide)

/-! ### C6 -/

/-- C6: the `error` field built for a failed outcome is at most 300
characters, and the
`Message:`-derived detail is truncated to at most 80 characters in the
markdown rendering and 100 in the console rendering. -/
theorem failure_record_truncation_bounds :
    (∀ o : Outcome, (buildFailureRecord o).error.length ≤ 300) ∧
    (∀ err : Str, (mdErrorDetail err).length ≤ 80) ∧
    (∀ err : Str, (consoleErrorDetail err).length ≤ 100) := by
  refine ⟨?_, ?_, ?_⟩
  · intro o
    show (cleanError o.longrepr).length ≤ 300
    exact List.length_take_le _ _
  · intro err
    exact List.length_take_le _ _
  · intro err
    exact List.length_take_le _ _

/-! ### C7 -/

/-- C7: with an unset or empty webhook URL, `send_to_wecom` performs no
post and returns the skipped outcome, and its result does not depend on
the run statistics (or the timestamp) at all. -/
theorem send_skipped_when_unconfigured :
    ∀ (u : Option Str) (s1 s2 : RunStats) (t1 t2 : Str),
      u = none ∨ u = some [] →
      send_to_wecom u s1 t1 = SendResult.skipped ∧
      send_to_wecom u s1 t1 = send_to_wecom u s2 t2 := by
  intro u s1 s2 t1 t2 h
  rcases h with h | h <;> subst h <;> exact ⟨rfl, rfl⟩

/-- C7 witness: the unset URL at a concrete statistics value. -/
theorem send_skipped_when_unconfigured_witness :
    send_to_wecom none sampleStats [] = SendResult.skipped :=
  (send_skipped_when_unconfigured none sampleStats initStats [] [] (Or.inl rfl)).1

/-! ### C8 -/

/-- C8: a setup- or teardown-phase outcome leaves every field of the run
statistics unchanged. -/
theorem observe_setup_teardown_noop :
    ∀ (stats : RunStats) (o : Outcome),
      o.phase = ("setup").data ∨ o.phase = ("teardown").data →
      pytest_runtest_makereport stats o = stats := by
  intro stats o h
  have hne : ¬ o.phase = ("call").data := by
    rcases h with h | h <;> rw [h] <;> decide
  simp [pytest_runtest_makereport, hne]

/-- C8 witness: a setup-phase outcome applied to a non-trivial state. -/
theorem observe_setup_teardown_noop_witness :
    pytest_runtest_makereport sampleStats sampleSetupOutcome = sampleStats :=
  observe_setup_teardown_noop sampleStats sampleSetupOutcome (Or.inl rfl)

/-! ### C9 -/

/-- C9: a line whose stripped form starts with `E   ` is kept with every
occurrence of `E   ` removed and the result trimmed — even when it
contains a noise substring — while a line not starting with `E   ` that
contains a noise substring is dropped. -/
theorem error_line_cleaning :
    ∀ (pre post : List Str) (line : Str),
      (pyStartsWith (("E   ").data) (pyStrip line) = true →
        (pre ++ line :: post).filterMap processErrorLine =
          pre.filterMap processErrorLine ++
            pyStrip (pyReplace (("E   ").data) [] line) ::
              post.filterMap processErrorLine) ∧
      (pyStartsWith (("E   ").data) (pyStrip line) = false →
        noiseMarkers.any (fun m => pyContains m line) = true →
        (pre ++ line :: post).filterMap processErrorLine =
          pre.filterMap processErrorLine ++ post.filterMap processErrorLine) := by
  intro pre post line
  constructor
  · intro hE
    have hl : processErrorLine line =
        some (pyStrip (pyReplace (("E   ").data) [] line)) := by
      simp [processErrorLine, hE]
    rw [List.filterMap_append, List.filterMap_cons, hl]
  · intro hE hN
    have hl : processErrorLine line = none := by
      simp [processErrorLine, hE, hN]
    rw [List.filterMap_append, List.filterMap_cons, hl]

/-- C9 witness: an `E   ` line containing the noise substring
`chromedriver` is kept, with both `E   ` occurrences removed. -/
theorem error_line_cleaning_witness :
    ([("x").data] ++ ("E   boom chromedriver E   z").data :: []).filterMap
        processErrorLine =
      [("x").data].filterMap processErrorLine ++
        pyStrip (pyReplace (("E   ").data) [] (("E   boom chromedriver E   z").data)) ::
          ([] : List Str).filterMap processErrorLine :=
  (error_line_cleaning [("x").data] [] (("E   boom chromedriver E   z").data)).1
    (by decide)

/-! ### C10 -/

/-- C10: for the concrete failed outcome `sampleFallbackOutcome` the
fallback frame of the extractor has an empty function name but line 42, so
the `location` string of the record is built from the engine-reported file, test
name and engine line + 1 (line 10), while the `line` field takes the
line 42 of the frame — the two disagree. -/
theorem record_line_location_disagreement :
    (buildFailureRecord sampleFallbackOutcome).line = 42 ∧
    (buildFailureRecord sampleFallbackOutcome).location =
      ("test_cases/a.py::test_x (第10行)").data ∧
    (extract_real_error_location sampleFallbackOutcome.longrepr).function = [] ∧
    (extract_real_error_location sampleFallbackOutcome.longrepr).line = 42 ∧
    ((42 : Int) ≠ 10) := by
  refine ⟨by decide, by decide, by decide, by decide, by decide⟩

/-! ### C4 -/

/-- C4 counterexample: the markdown payload embeds the wall-clock
timestamp (`datetime.now()`), so two renderings of the identical
statistics value differ when performed at different times — the renderer
is not a pure function of the statistics alone. -/
theorem render_markdown_not_stats_pure_cex :
    render_markdown initStats (("2026-10-12 00:00:00").data) ≠
      render_markdown initStats (("2026-10-12 00:00:01").data) := by
  decide

/-- C4 amended: `render_console` is a function of the statistics alone,
while `render_markdown` is a deterministic function of the statistics and
the embedded timestamp; for a fixed statistics value its output is equal
exactly when the timestamps are equal. -/
theorem render_markdown_determined_by_stats_and_time :
    ∀ (stats : RunStats) (t1 t2 : Str),
      render_markdown stats t1 = render_markdown stats t2 ↔ t1 = t2 := by
  intro stats t1 t2
  constructor
  · intro h
    have h0 : mdHeader ++ (t1 ++ mdAfterTime stats) =
        mdHeader ++ (t2 ++ mdAfterTime stats) := h
    exact List.append_cancel_right (List.append_cancel_left h0)
  · intro h
    rw [h]

/-! ### C5 -/

theorem exists_append_iff_isPrefixOf_reverse (t msg : Str) :
    (∃ kind : Str, msg = kind ++ t) ↔ t.reverse.isPrefixOf msg.reverse = true := by
  rw [List.isPrefixOf_iff_prefix]
  constructor
  · rintro ⟨kind, rfl⟩
    rw [List.reverse_append]
    exact List.prefix_append _ _
  · rintro ⟨tl, htl⟩
    have h2 := congrArg List.reverse htl
    simp only [List.reverse_append, List.reverse_reverse] at h2
    exact ⟨tl.reverse, h2.symm⟩

/-- C5 counterexample: the text-mismatch default message of
`assert_text_in_element` does not follow the `{kind}: {selector}`
pattern — it embeds the expected and actual text and never mentions the
selector. -/
theorem text_mismatch_default_cex :
    assert_text_in_element (("b").data) ((".p").data) (("a").data) none =
      Except.error (mismatchMsg (("a").data) (("b").data)) ∧
    ¬ matchesDefaultPattern (mismatchMsg (("a").data) (("b").data)) ((".p").data) := by
  constructor
  · rfl
  · unfold matchesDefaultPattern
    rw [exists_append_iff_isPrefixOf_reverse]
    decide

/-- C5 amended: every helper returns `true` on success and otherwise
raises `AssertionError` with the caller-supplied message when one is
given; with no caller message, every default of
`assert_element_exists`, `assert_element_is_visible` and
`assert_element_clickable` matches the `{kind}: {selector}` pattern, while
the text-mismatch default of `assert_text_in_element` is the fixed
expected/actual message instead. -/
theorem custom_assertion_messages :
    (∀ (d : DriverResult) (sel : Str) (em : Option Str),
      (d = DriverResult.ok →
        assert_element_exists d sel em = Except.ok true ∧
        assert_element_is_visible d sel em = Except.ok true ∧
        assert_element_clickable d sel em = Except.ok true) ∧
      (∀ m, em = some m → d ≠ DriverResult.ok →
        assert_element_exists d sel em = Except.error m ∧
        assert_element_is_visible d sel em = Except.error m ∧
        assert_element_clickable d sel em = Except.error m) ∧
      (em = none → d ≠ DriverResult.ok →
        (∃ m1, assert_element_exists d sel em = Except.error m1 ∧
          matchesDefaultPattern m1 sel) ∧
        (∃ m2, assert_element_is_visible d sel em = Except.error m2 ∧
          matchesDefaultPattern m2 sel) ∧
        (∃ m3, assert_element_clickable d sel em = Except.error m3 ∧
          matchesDefaultPattern m3 sel))) ∧
    (∀ (txt sel exp : Str) (em : Option Str),
      (pyContains exp txt = true →
        assert_text_in_element txt sel exp em = Except.ok true) ∧
      (∀ m, em = some m → pyContains exp txt = false →
        assert_text_in_element txt sel exp em = Except.error m) ∧
      (em = none → pyContains exp txt = false →
        assert_text_in_element txt sel exp em =
          Except.error (mismatchMsg exp txt))) := by
  constructor
  · intro d sel em
    refine ⟨?_, ?_, ?_⟩
    · rintro rfl
      exact ⟨rfl, rfl, rfl⟩
    · rintro m rfl hd
      cases d with
      | ok => exact absurd rfl hd
      | notFound => exact ⟨rfl, rfl, rfl⟩
      | failure => exact ⟨rfl, rfl, rfl⟩
    · rintro rfl hd
      cases d with
      | ok => exact absurd rfl hd
      | notFound =>
        exact ⟨⟨_, rfl, ("元素不存在").data, rfl⟩,
          ⟨_, rfl, ("元素不可见").data, rfl⟩,
          ⟨_, rfl, ("元素不可点击").data, rfl⟩⟩
      | failure =>
        exact ⟨⟨_, rfl, ("元素不存在").data, rfl⟩,
          ⟨_, rfl, ("检查元素可见性异常").data, rfl⟩,
          ⟨_, rfl, ("检查元素可点击性异常").data, rfl⟩⟩
  · intro txt sel exp em
    refine ⟨?_, ?_, ?_⟩
    · intro hc
      simp [assert_text_in_element, hc]
    · rintro m rfl hc
      simp [assert_text_in_element, hc]
    · rintro rfl hc
      simp [assert_text_in_element, hc]

/-- C5 witness: a concrete text-mismatch with no caller message yields the
expected/actual default. -/
theorem custom_assertion_messages_witness :
    assert_text_in_element (("b").data) ((".p").data) (("a").data) none =
      Except.error (mismatchMsg (("a").data) (("b").data)) :=
  ((custom_assertion_messages.2 (("b").data) ((".p").data) (("a").data) none).2.2)
    rfl (by decide)

end UITest
